import Mathlib

/-!
# Verification of the meeting-scheduler tool

Shallow embedding of the meeting-scheduler repository
(`src/dist/index.d.ts`): the `MicrosoftGraphClient` class (token-cache
state, `authenticate`, `createMeeting`), the AI Spine tool `execute`
function, and the standalone Express `/api/execute` handler.

JavaScript conventions are modelled explicitly:
* `undefined`/missing optional fields become `Option`;
* JS truthiness on strings (`""` and `null`/`undefined` are falsy) is the
  `truthy` predicate on `Option String`;
* `Date.now()` readings and `new Date(...)` parsing are passed in as
  parameters (`now` values of type `Int`, a `parseDate` function returning
  `none` for `NaN` dates);
* each outbound `fetch` is represented by its response (a `FetchResult`
  parameter) and recorded in a trace of `NetCall`s, so that theorems can
  count the network requests an invocation performs.
-/

namespace MeetingScheduler

/-- JS truthiness of a possibly-absent string: `null`/`undefined` and the
empty string are falsy. -/
def truthy : Option String → Bool
  | none => false
  | some s => s ≠ ""

/-- `keepTruthy o` models the JS conditional-spread idiom
`...(x && { k: x })` for a string field: the field is kept only when
truthy. -/
def keepTruthy : Option String → Option String
  | none => none
  | some s => if s = "" then none else some s

/-- Substring test (JS `String.prototype.includes`). -/
def containsSub (hay needle : String) : Bool :=
  hay.toList.tails.any (fun t => needle.toList.isPrefixOf t)

/-- Input shape shared by the tool input and `createMeeting`'s
`meetingData` argument (`MeetingSchedulerInput` in the source). -/
structure MeetingInput where
  subject : String
  startDateTime : String
  endDateTime : String
  attendees : Option (List String)
  description : Option String
  allowCamera : Option Bool
  allowMicrophone : Option Bool
  allowRecording : Option Bool
  deriving Repr, DecidableEq

/-- `MeetingSchedulerConfig`: all fields optional strings, resolved and
checked for truthiness by the callers. -/
structure Config where
  client_id : Option String
  client_secret : Option String
  tenant_id : Option String
  user_id : Option String
  deriving Repr, DecidableEq

/-- The constructor arguments of `MicrosoftGraphClient`. -/
structure Creds where
  clientId : String
  clientSecret : String
  tenantId : String
  deriving Repr, DecidableEq

/-- Mutable state of a `MicrosoftGraphClient` instance:
`accessToken : string | null` and `tokenExpiry : number` (milliseconds). -/
structure GraphState where
  accessToken : Option String
  tokenExpiry : Int
  deriving Repr, DecidableEq

/-- A freshly constructed client: `accessToken = null`, `tokenExpiry = 0`. -/
def GraphState.init : GraphState := ⟨none, 0⟩

/-- The cache-validity test at the top of `authenticate`:
`this.accessToken && Date.now() < this.tokenExpiry`. -/
def tokenCacheValid (st : GraphState) (now : Int) : Bool :=
  truthy st.accessToken && now < st.tokenExpiry

/-- Parsed JSON body of a successful token-endpoint response. -/
structure TokenBody where
  access_token : String
  expires_in : Int
  deriving Repr, DecidableEq

/-- Outcome of one `fetch`: a 2xx response with parsed body `α`, a
non-success HTTP status with its error text, or a thrown network error. -/
inductive FetchResult (α : Type) where
  | success (body : α)
  | httpError (status : Nat) (body : String)
  | networkError (msg : String)
  deriving Repr, DecidableEq

/-- Wire payload built by `createMeeting` (the `meetingPayload` object
literal).  `externalId` is present only when the description was truthy. -/
structure MeetingPayload where
  startDateTime : String
  endDateTime : String
  subject : String
  externalId : Option String
  allowAttendeeToEnableCamera : Bool
  allowAttendeeToEnableMic : Bool
  allowRecording : Bool
  allowMeetingChat : String
  allowedPresenters : String
  deriving Repr, DecidableEq

/-- One outbound network request, as recorded in an invocation's trace. -/
inductive NetCall where
  | tokenRequest (tenantId clientId clientSecret : String)
  | meetingRequest (endpoint bearer : String) (payload : MeetingPayload)
  deriving Repr, DecidableEq

/-- Whether a recorded call targets the token endpoint. -/
def NetCall.isToken : NetCall → Bool
  | .tokenRequest _ _ _ => true
  | .meetingRequest _ _ _ => false

/-- Whether a recorded call targets the meeting-creation endpoint. -/
def NetCall.isMeeting : NetCall → Bool
  | .tokenRequest _ _ _ => false
  | .meetingRequest _ _ _ => true

/-- Number of credential-exchange requests in a trace. -/
def tokenCalls (trace : List NetCall) : Nat :=
  (trace.filter NetCall.isToken).length

/-- Number of meeting-creation requests in a trace. -/
def meetingCalls (trace : List NetCall) : Nat :=
  (trace.filter NetCall.isMeeting).length

/-- `MicrosoftGraphClient.authenticate`.  `now0` is the `Date.now()` read
in the cache check, `now1` the one read when storing the new expiry;
`resp` is the token endpoint's response (only consulted on a cache miss).
Returns the updated client state (or the thrown error message) together
with the network calls issued. -/
def authenticate (creds : Creds) (st : GraphState) (now0 now1 : Int)
    (resp : FetchResult TokenBody) :
    Except String GraphState × List NetCall :=
  if tokenCacheValid st now0 then
    (.ok st, [])
  else
    let call := NetCall.tokenRequest creds.tenantId creds.clientId creds.clientSecret
    match resp with
    | .success body =>
        (.ok ⟨some body.access_token, now1 + (body.expires_in - 60) * 1000⟩, [call])
    | .httpError status body =>
        (.error ("Failed to authenticate with Microsoft Graph: Authentication failed: "
            ++ toString status ++ " - " ++ body), [call])
    | .networkError msg =>
        (.error ("Failed to authenticate with Microsoft Graph: " ++ msg), [call])

/-- The `meetingPayload` object literal in `createMeeting`: fixed chat and
presenter values, `?? true / ?? true / ?? false` defaults for the three
permission flags, and `externalId` spliced in only for a truthy
description. -/
def buildMeetingPayload (md : MeetingInput) : MeetingPayload where
  startDateTime := md.startDateTime
  endDateTime := md.endDateTime
  subject := md.subject
  externalId := keepTruthy md.description
  allowAttendeeToEnableCamera := md.allowCamera.getD true
  allowAttendeeToEnableMic := md.allowMicrophone.getD true
  allowRecording := md.allowRecording.getD false
  allowMeetingChat := "enabled"
  allowedPresenters := "everyone"

/-- Endpoint selection in `createMeeting`: the user-scoped collection when
`userId` is truthy, the `/me` collection otherwise. -/
def selectEndpoint (userId : Option String) : String :=
  if truthy userId then
    "https://graph.microsoft.com/v1.0/users/" ++ userId.getD "" ++ "/onlineMeetings"
  else
    "https://graph.microsoft.com/v1.0/me/onlineMeetings"

/-- Nested `audioConferencing` object of a Graph meeting response. -/
structure AudioConferencing where
  conferenceId : Option String
  dialinUrl : Option String
  deriving Repr, DecidableEq

/-- Nested `organizer.user` object of a Graph meeting response. -/
structure OrganizerUser where
  displayName : Option String
  deriving Repr, DecidableEq

/-- Nested `organizer` object of a Graph meeting response. -/
structure Organizer where
  user : Option OrganizerUser
  deriving Repr, DecidableEq

/-- Microsoft Graph `onlineMeetings` response, with every field the code
dereferences modelled as optional (the provider may omit any of them). -/
structure ProviderMeeting where
  id : Option String
  joinUrl : Option String
  audioConferencing : Option AudioConferencing
  subject : Option String
  startDateTime : Option String
  endDateTime : Option String
  creationDateTime : Option String
  organizer : Option Organizer
  allowAttendeeToEnableCamera : Option Bool
  allowAttendeeToEnableMic : Option Bool
  allowRecording : Option Bool
  allowMeetingChat : Option String
  deriving Repr, DecidableEq

/-- `MicrosoftGraphClient.createMeeting`: authenticates first (propagating
its failure unchanged), then issues exactly one creation request to the
selected endpoint with the cached bearer token and the built payload. -/
def createMeeting (creds : Creds) (st : GraphState) (md : MeetingInput)
    (userId : Option String) (now0 now1 : Int)
    (tokenResp : FetchResult TokenBody)
    (meetingResp : FetchResult ProviderMeeting) :
    Except String (GraphState × ProviderMeeting) × List NetCall :=
  match authenticate creds st now0 now1 tokenResp with
  | (.error e, calls) => (.error e, calls)
  | (.ok st1, calls) =>
    let endpoint := selectEndpoint userId
    let payload := buildMeetingPayload md
    let call := NetCall.meetingRequest endpoint (st1.accessToken.getD "") payload
    match meetingResp with
    | .success m => (.ok (st1, m), calls ++ [call])
    | .httpError status body =>
        (.error ("Failed to create Teams meeting: Meeting creation failed: "
            ++ toString status ++ " - " ++ body), calls ++ [call])
    | .networkError msg =>
        (.error ("Failed to create Teams meeting: " ++ msg), calls ++ [call])

/-- The `meetingInfo` object the tool's `execute` builds from the raw
provider response: direct field copies plus optional-chained accesses
(`audioConferencing?.conferenceId`, `organizer?.user?.displayName`) and
the `allowMeetingChat === 'enabled'` comparison. -/
structure MeetingInfo where
  meeting_id : Option String
  join_url : Option String
  conference_id : Option String
  dial_in_url : Option String
  subject : Option String
  start_time : Option String
  end_time : Option String
  created_at : Option String
  organizer : Option String
  allow_camera : Option Bool
  allow_microphone : Option Bool
  allow_recording : Option Bool
  chat_enabled : Bool
  deriving Repr, DecidableEq

/-- Maps a raw provider response into `meetingInfo`; every optional
nested access uses `Option.bind`, the embedding of the source's `?.`
chains, so absence degrades to `none` instead of failing. -/
def normalizeMeeting (m : ProviderMeeting) : MeetingInfo where
  meeting_id := m.id
  join_url := m.joinUrl
  conference_id := m.audioConferencing.bind (fun a => a.conferenceId)
  dial_in_url := m.audioConferencing.bind (fun a => a.dialinUrl)
  subject := m.subject
  start_time := m.startDateTime
  end_time := m.endDateTime
  created_at := m.creationDateTime
  organizer := (m.organizer.bind (fun o => o.user)).bind (fun u => u.displayName)
  allow_camera := m.allowAttendeeToEnableCamera
  allow_microphone := m.allowAttendeeToEnableMic
  allow_recording := m.allowRecording
  chat_enabled := m.allowMeetingChat == some "enabled"

/-- The `data` object of a successful tool execution. -/
structure ExecData where
  meeting : MeetingInfo
  summary : String
  attendees_count : Nat
  instructions : List String
  deriving Repr, DecidableEq

/-- The conditional spreads `execute` uses to forward its input to
`createMeeting`: `attendees`/`description` are spliced by JS truthiness
(an array is always truthy, an empty-string description is dropped),
the three permission flags by an explicit `!== undefined` test that
keeps a caller-supplied `false`. -/
def forwardInput (input : MeetingInput) : MeetingInput where
  subject := input.subject
  startDateTime := input.startDateTime
  endDateTime := input.endDateTime
  attendees := input.attendees
  description := keepTruthy input.description
  allowCamera := input.allowCamera
  allowMicrophone := input.allowMicrophone
  allowRecording := input.allowRecording

/-- The catch block of `execute`: appends a credentials hint when the
message signals an authentication failure and a permissions hint when it
signals a meeting-creation failure. -/
def classifyError (msg : String) : String :=
  if containsSub msg "Authentication failed" then
    msg ++ " - Please verify your Microsoft Graph API credentials"
  else if containsSub msg "Meeting creation failed" then
    msg ++ " - Please check if the user has required permissions"
  else msg

/-- The error taxonomy as the code itself discriminates it (the
`includes` tests of `execute`'s catch block). -/
inductive ErrorKind where
  | authentication
  | meetingCreation
  | internal
  deriving Repr, DecidableEq

/-- Classifies a thrown message by the same substring tests the source
uses. -/
def errorKindOf (msg : String) : ErrorKind :=
  if containsSub msg "Authentication failed" then .authentication
  else if containsSub msg "Meeting creation failed" then .meetingCreation
  else .internal

/-- Wraps a (classified) error message the way `execute`'s catch block
rethrows it. -/
def wrapExec (msg : String) : String :=
  "Failed to create Teams meeting: " ++ classifyError msg

/-- The tool's `execute` function.  `parseDate` embeds `new Date(...)`
(`none` for an invalid date), `now` is the `new Date()` read by the
past-time check, `now0`/`now1` are the `Date.now()` reads inside
`authenticate`, and the two `FetchResult`s are the responses of the (at
most two) outbound requests.  Returns the result (success data or thrown
message) and the trace of network calls. -/
def execute (parseDate : String → Option Int) (now : Int)
    (input : MeetingInput) (config : Config) (now0 now1 : Int)
    (tokenResp : FetchResult TokenBody)
    (meetingResp : FetchResult ProviderMeeting) :
    Except String ExecData × List NetCall :=
  if ¬ (truthy config.client_id && truthy config.client_secret
        && truthy config.tenant_id) then
    (.error (wrapExec ("Missing required Microsoft Graph API configuration: "
        ++ "client_id, client_secret, and tenant_id are required")), [])
  else
    match parseDate input.startDateTime, parseDate input.endDateTime with
    | none, _ =>
        (.error (wrapExec ("Invalid date format. Please use ISO format "
            ++ "(e.g., 2025-09-03T14:30:00Z)")), [])
    | some _, none =>
        (.error (wrapExec ("Invalid date format. Please use ISO format "
            ++ "(e.g., 2025-09-03T14:30:00Z)")), [])
    | some startTime, some endTime =>
      if endTime ≤ startTime then
        (.error (wrapExec "End time must be after start time"), [])
      else if startTime < now then
        (.error (wrapExec "Cannot schedule meetings in the past"), [])
      else
        match createMeeting
            ⟨config.client_id.getD "", config.client_secret.getD "",
             config.tenant_id.getD ""⟩
            GraphState.init (forwardInput input)
            config.user_id now0 now1 tokenResp meetingResp with
        | (.error e, calls) => (.error (wrapExec e), calls)
        | (.ok (_, m), calls) =>
            (.ok
              { meeting := normalizeMeeting m
                summary := "Successfully created Teams meeting \""
                    ++ input.subject ++ "\" for " ++ input.startDateTime
                attendees_count := (input.attendees.getD []).length
                instructions :=
                  [ "Share the join URL with attendees to join the meeting",
                    "Meeting will be available 15 minutes before the start time",
                    if input.allowRecording.getD false then
                      "Recording is enabled for this meeting"
                    else
                      "Recording is disabled for this meeting" ] }, calls)

/-- The `input_data` object of an Express request body: every field,
including the ones the handler requires, may be absent. -/
structure ApiInput where
  subject : Option String
  startDateTime : Option String
  endDateTime : Option String
  attendees : Option (List String)
  description : Option String
  allowCamera : Option Bool
  allowMicrophone : Option Bool
  allowRecording : Option Bool
  deriving Repr, DecidableEq

/-- JS `a || b` on possibly-absent strings: the left operand when truthy,
otherwise the right one (used for `config?.x || process.env.X`). -/
def orFallback (a b : Option String) : Option String :=
  if truthy a then a else b

/-- The `input_data` fields as the standalone `createMeeting(meetingData:
any)` reads them; the three required strings are truthy at the call
site, so `getD ""` never actually fires. -/
def ApiInput.toMeetingInput (input : ApiInput) : MeetingInput where
  subject := input.subject.getD ""
  startDateTime := input.startDateTime.getD ""
  endDateTime := input.endDateTime.getD ""
  attendees := input.attendees
  description := input.description
  allowCamera := input.allowCamera
  allowMicrophone := input.allowMicrophone
  allowRecording := input.allowRecording

/-- The `meeting` object of a successful Express response. -/
structure ApiMeeting where
  meeting_id : Option String
  join_url : Option String
  subject : Option String
  start_time : Option String
  end_time : Option String
  deriving Repr, DecidableEq

/-- JSON envelope the Express handler answers with: a success body, or an
error body with its HTTP status, `error_code` and `error_message`. -/
inductive ApiResponse where
  | ok (meeting : ApiMeeting) (summary : String)
  | err (status : Nat) (code msg : String)
  deriving Repr, DecidableEq

/-- Whether an Express response is the success envelope. -/
def ApiResponse.isOk : ApiResponse → Bool
  | .ok _ _ => true
  | .err _ _ _ => false

/-- The Express `POST /api/execute` handler: resolves configuration with
environment fallbacks, checks required config and input fields, parses
and compares the two dates (it has no past-time check), then constructs
a fresh `MicrosoftGraphClient` and forwards `input_data` to
`createMeeting`; a thrown error becomes a 500 `INTERNAL_ERROR`. -/
def apiExecute (parseDate : String → Option Int)
    (input_data : ApiInput) (config env : Config) (now0 now1 : Int)
    (tokenResp : FetchResult TokenBody)
    (meetingResp : FetchResult ProviderMeeting) :
    ApiResponse × List NetCall :=
  if ¬ (truthy (orFallback config.client_id env.client_id)
        && truthy (orFallback config.client_secret env.client_secret)
        && truthy (orFallback config.tenant_id env.tenant_id)) then
    (.err 400 "CONFIGURATION_ERROR"
      "Missing required Microsoft Graph API configuration", [])
  else if ¬ (truthy input_data.subject && truthy input_data.startDateTime
        && truthy input_data.endDateTime) then
    (.err 400 "VALIDATION_ERROR" "Missing required input fields", [])
  else
    match parseDate (input_data.startDateTime.getD ""),
        parseDate (input_data.endDateTime.getD "") with
    | none, _ =>
        (.err 400 "VALIDATION_ERROR"
          "Invalid date format. Please use ISO format", [])
    | some _, none =>
        (.err 400 "VALIDATION_ERROR"
          "Invalid date format. Please use ISO format", [])
    | some startTime, some endTime =>
      if endTime ≤ startTime then
        (.err 400 "VALIDATION_ERROR" "End time must be after start time", [])
      else
        match createMeeting
            ⟨(orFallback config.client_id env.client_id).getD "",
             (orFallback config.client_secret env.client_secret).getD "",
             (orFallback config.tenant_id env.tenant_id).getD ""⟩
            GraphState.init input_data.toMeetingInput
            (orFallback config.user_id env.user_id)
            now0 now1 tokenResp meetingResp with
        | (.error e, calls) => (.err 500 "INTERNAL_ERROR" e, calls)
        | (.ok (_, m), calls) =>
            (.ok
              { meeting_id := m.id
                join_url := m.joinUrl
                subject := m.subject
                start_time := m.startDateTime
                end_time := m.endDateTime }
              ("Successfully created Teams meeting \""
                ++ input_data.subject.getD "" ++ "\""), calls)

/-- JSON value of a `meetingPayload` field (all fields are strings or
booleans). -/
inductive JValue where
  | str (s : String)
  | bool (b : Bool)
  deriving Repr, DecidableEq

/-- `JSON.stringify(meetingPayload)` as an ordered key/value list: the
three copied strings, then `externalId` only when present (the
conditional spread), then the five option flags. -/
def MeetingPayload.toJson (p : MeetingPayload) : List (String × JValue) :=
  [("startDateTime", .str p.startDateTime),
   ("endDateTime", .str p.endDateTime),
   ("subject", .str p.subject)]
  ++ (match p.externalId with
      | some d => [("externalId", JValue.str d)]
      | none => [])
  ++ [("allowAttendeeToEnableCamera", .bool p.allowAttendeeToEnableCamera),
      ("allowAttendeeToEnableMic", .bool p.allowAttendeeToEnableMic),
      ("allowRecording", .bool p.allowRecording),
      ("allowMeetingChat", .str p.allowMeetingChat),
      ("allowedPresenters", .str p.allowedPresenters)]

/-- Concrete date parser for witnesses: three parseable timestamps. -/
def pdTest : String → Option Int := fun s =>
  if s = "S" then some 100 else if s = "E" then some 200
  else if s = "Eq" then some 100 else none

/-- Concrete complete configuration for witnesses. -/
def cfgTest : Config := ⟨some "id", some "secret", some "tenant", none⟩

/-- Concrete empty environment for the Express handler's fallbacks. -/
def envEmpty : Config := ⟨none, none, none, none⟩

/-- Concrete well-formed tool input for witnesses. -/
def inpTest : MeetingInput := ⟨"Standup", "S", "E", none, none, none, none, none⟩

/-- Concrete well-formed Express input for witnesses. -/
def apiTest : ApiInput :=
  ⟨some "Standup", some "S", some "E", none, none, none, none, none⟩

/-- Concrete provider response for witnesses. -/
def pmTest : ProviderMeeting :=
  ⟨some "mid", some "https://join", none, some "Standup", none, none, none,
   none, none, none, none, some "enabled"⟩

/-- `containsSub` agrees with the `List.IsInfix` relation on the
underlying character lists. -/
theorem containsSub_infix_iff (hay n : String) :
    containsSub hay n = true ↔ n.toList <:+: hay.toList := by
  simp only [containsSub, List.any_eq_true]
  constructor
  · rintro ⟨t, ht, hp⟩
    rw [List.mem_tails] at ht
    rw [List.isPrefixOf_iff_prefix] at hp
    exact List.infix_iff_prefix_suffix.mpr ⟨t, hp, ht⟩
  · intro h
    obtain ⟨t, hp, ht⟩ := List.infix_iff_prefix_suffix.mp h
    exact ⟨t, (List.mem_tails _ _).mpr ht, List.isPrefixOf_iff_prefix.mpr hp⟩

/-- A substring of `s` is still a substring after appending on the
right. -/
theorem containsSub_mono_right (s t n : String)
    (h : containsSub s n = true) : containsSub (s ++ t) n = true := by
  rw [containsSub_infix_iff] at h ⊢
  have he : (s ++ t).toList = s.toList ++ t.toList := by
    simp [String.toList, String.data_append]
  rw [he]
  exact h.trans (List.prefix_append _ _).isInfix

/-- An authentication-failure message always contains the marker the
catch blocks test for. -/
theorem authMsg_marker (status : Nat) (body : String) :
    containsSub ("Failed to authenticate with Microsoft Graph: Authentication failed: "
      ++ toString status ++ " - " ++ body) "Authentication failed" = true := by
  apply containsSub_mono_right
  apply containsSub_mono_right
  apply containsSub_mono_right
  decide

/-- `execute`'s catch block appends the credentials hint to an
authentication-failure message. -/
theorem classifyError_authMsg (status : Nat) (body : String) :
    classifyError ("Failed to authenticate with Microsoft Graph: Authentication failed: "
        ++ toString status ++ " - " ++ body)
      = "Failed to authenticate with Microsoft Graph: Authentication failed: "
        ++ toString status ++ " - " ++ body
        ++ " - Please verify your Microsoft Graph API credentials" := by
  simp [classifyError, authMsg_marker status body]

/-- The code's own substring test classifies an authentication-failure
message as an authentication error. -/
theorem errorKindOf_authMsg (status : Nat) (body : String) :
    errorKindOf ("Failed to authenticate with Microsoft Graph: Authentication failed: "
        ++ toString status ++ " - " ++ body) = .authentication := by
  simp [errorKindOf, authMsg_marker status body]

/-- C5: the provider payload built for a validated request applies the
defaults camera=true, microphone=true, recording=false only when the
caller omitted the flag (`Option.getD`, so an explicit `false` is
preserved and sent as `false`), omits `externalId` when the description
is absent, and fixes the chat flag to `"enabled"` and the presenter
policy to `"everyone"`. -/
theorem c5_payload_defaults (input : MeetingInput) :
    (buildMeetingPayload (forwardInput input)).allowAttendeeToEnableCamera
        = input.allowCamera.getD true
    ∧ (buildMeetingPayload (forwardInput input)).allowAttendeeToEnableMic
        = input.allowMicrophone.getD true
    ∧ (buildMeetingPayload (forwardInput input)).allowRecording
        = input.allowRecording.getD false
    ∧ (buildMeetingPayload (forwardInput
          { input with allowCamera := some false })).allowAttendeeToEnableCamera
        = false
    ∧ (buildMeetingPayload (forwardInput
          { input with allowMicrophone := some false })).allowAttendeeToEnableMic
        = false
    ∧ (buildMeetingPayload (forwardInput
          { input with allowRecording := some false })).allowRecording
        = false
    ∧ (buildMeetingPayload (forwardInput
          { input with description := none })).externalId = none
    ∧ (buildMeetingPayload (forwardInput input)).allowMeetingChat = "enabled"
    ∧ (buildMeetingPayload (forwardInput input)).allowedPresenters = "everyone" := by
  simp [buildMeetingPayload, forwardInput, keepTruthy]

/-- C6: on a cache miss, a successful token exchange with declared
time-to-live `ttl` seconds stores the new token with expiry
`now1 + (ttl - 60) * 1000` milliseconds, i.e. 60 seconds before the
provider-declared expiry. -/
theorem c6_token_expiry_margin (creds : Creds) (st : GraphState)
    (now0 now1 : Int) (tok : String) (ttl : Int)
    (h : tokenCacheValid st now0 = false) :
    (authenticate creds st now0 now1 (.success ⟨tok, ttl⟩)).fst
      = .ok ⟨some tok, now1 + (ttl - 60) * 1000⟩ := by
  simp [authenticate, h]

/-- Witness for C6 at a concrete cache-missing state. -/
theorem c6_token_expiry_margin_witness :
    (authenticate ⟨"id", "secret", "tenant"⟩ GraphState.init 0 1000
        (.success ⟨"tok", 3600⟩)).fst
      = .ok ⟨some "tok", 1000 + (3600 - 60) * 1000⟩ :=
  c6_token_expiry_margin ⟨"id", "secret", "tenant"⟩ GraphState.init 0 1000
    "tok" 3600 (by decide)

/-- C8: the response normalizer is a total function; when the provider
omits `audioConferencing` the derived `conference_id` and `dial_in_url`
are `none`, and when the organizer chain (`organizer`, `organizer.user`,
`organizer.user.displayName`) is broken anywhere the derived `organizer`
is `none` — absence degrades to an absent value instead of failing. -/
theorem c8_normalizer_tolerates_absence (m : ProviderMeeting) :
    (normalizeMeeting { m with audioConferencing := none }).conference_id = none
    ∧ (normalizeMeeting { m with audioConferencing := none }).dial_in_url = none
    ∧ (normalizeMeeting { m with organizer := none }).organizer = none
    ∧ (normalizeMeeting { m with organizer := some ⟨none⟩ }).organizer = none
    ∧ (normalizeMeeting { m with organizer := some ⟨some ⟨none⟩⟩ }).organizer
        = none := by
  simp [normalizeMeeting]

/-- C10: the serialized wire payload holds only the nine provider keys
(with `externalId` optional), never an `attendees` key, and the whole of
`createMeeting` — including the payload it transmits — is independent of
the attendee list. -/
theorem c10_payload_excludes_attendees (md : MeetingInput)
    (a : Option (List String)) (creds : Creds) (st : GraphState)
    (uid : Option String) (now0 now1 : Int)
    (tokenResp : FetchResult TokenBody)
    (meetingResp : FetchResult ProviderMeeting) :
    (buildMeetingPayload md).toJson.map Prod.fst ⊆
      ["startDateTime", "endDateTime", "subject", "externalId",
       "allowAttendeeToEnableCamera", "allowAttendeeToEnableMic",
       "allowRecording", "allowMeetingChat", "allowedPresenters"]
    ∧ "attendees" ∉ (buildMeetingPayload md).toJson.map Prod.fst
    ∧ createMeeting creds st { md with attendees := a } uid now0 now1
          tokenResp meetingResp
        = createMeeting creds st md uid now0 now1 tokenResp meetingResp := by
  have hp : buildMeetingPayload { md with attendees := a }
      = buildMeetingPayload md := rfl
  refine ⟨?_, ?_, ?_⟩
  · cases h : (buildMeetingPayload md).externalId <;>
      simp [MeetingPayload.toJson, h, List.subset_def]
  · cases h : (buildMeetingPayload md).externalId <;>
      simp [MeetingPayload.toJson, h]
  · simp only [createMeeting, hp]

/-- A freshly constructed client never has a valid cached token. -/
theorem init_cache_invalid (now : Int) :
    tokenCacheValid GraphState.init now = false := rfl

/-- C2: when the token endpoint answers a non-success HTTP status, the
tool execution fails with a message embedding that status and the
provider's error body, classified as an authentication error by the
code's own test; the trace holds exactly the single token request — the
meeting endpoint is never called and the token request is not retried. -/
theorem c2_auth_failure_no_meeting_call
    (parseDate : String → Option Int) (now : Int) (input : MeetingInput)
    (config : Config) (now0 now1 : Int) (status : Nat) (body : String)
    (meetingResp : FetchResult ProviderMeeting) (ts te : Int)
    (hcid : truthy config.client_id = true)
    (hsec : truthy config.client_secret = true)
    (hten : truthy config.tenant_id = true)
    (hs : parseDate input.startDateTime = some ts)
    (he : parseDate input.endDateTime = some te)
    (hlt : ts < te) (hnow : now ≤ ts) :
    execute parseDate now input config now0 now1 (.httpError status body)
        meetingResp
      = (.error ("Failed to create Teams meeting: "
            ++ ("Failed to authenticate with Microsoft Graph: Authentication failed: "
                ++ toString status ++ " - " ++ body
                ++ " - Please verify your Microsoft Graph API credentials")),
         [.tokenRequest (config.tenant_id.getD "") (config.client_id.getD "")
            (config.client_secret.getD "")])
    ∧ errorKindOf ("Failed to authenticate with Microsoft Graph: Authentication failed: "
          ++ toString status ++ " - " ++ body) = .authentication := by
  refine ⟨?_, errorKindOf_authMsg status body⟩
  simp only [execute, hcid, hsec, hten, hs, he, Bool.and_self, not_true_eq_false,
    if_false, if_neg (not_le.mpr hlt), if_neg (not_lt.mpr hnow),
    createMeeting, authenticate, init_cache_invalid, Bool.false_eq_true,
    wrapExec, classifyError_authMsg]

/-- Witness for C2: HTTP 401 from the token endpoint at a concrete
well-formed input. -/
theorem c2_auth_failure_no_meeting_call_witness :
    execute pdTest 50 inpTest cfgTest 0 0 (.httpError 401 "invalid_client")
        (.success pmTest)
      = (.error ("Failed to create Teams meeting: "
            ++ ("Failed to authenticate with Microsoft Graph: Authentication failed: "
                ++ toString 401 ++ " - " ++ "invalid_client"
                ++ " - Please verify your Microsoft Graph API credentials")),
         [.tokenRequest (cfgTest.tenant_id.getD "") (cfgTest.client_id.getD "")
            (cfgTest.client_secret.getD "")])
    ∧ errorKindOf ("Failed to authenticate with Microsoft Graph: Authentication failed: "
          ++ toString 401 ++ " - " ++ "invalid_client") = .authentication :=
  c2_auth_failure_no_meeting_call pdTest 50 inpTest cfgTest 0 0 401
    "invalid_client" (.success pmTest) 100 200 (by decide) (by decide)
    (by decide) (by decide) (by decide) (by decide) (by decide)

/-- C3: whenever both dates parse and the end time is not after the
start time, the tool execution fails with the end-before-start message
and the Express handler answers 400 `VALIDATION_ERROR` with the same
message; in both cases the network trace is empty, whatever the other
fields hold. -/
theorem c3_end_not_after_start
    (parseDate : String → Option Int) (now : Int) (input : MeetingInput)
    (config : Config) (now0 now1 : Int)
    (tokenResp : FetchResult TokenBody)
    (meetingResp : FetchResult ProviderMeeting)
    (apiIn : ApiInput) (apiCfg env : Config) (ts te ts2 te2 : Int)
    (hcid : truthy config.client_id = true)
    (hsec : truthy config.client_secret = true)
    (hten : truthy config.tenant_id = true)
    (hs : parseDate input.startDateTime = some ts)
    (he : parseDate input.endDateTime = some te)
    (hle : te ≤ ts)
    (hacid : truthy (orFallback apiCfg.client_id env.client_id) = true)
    (hasec : truthy (orFallback apiCfg.client_secret env.client_secret) = true)
    (haten : truthy (orFallback apiCfg.tenant_id env.tenant_id) = true)
    (hasub : truthy apiIn.subject = true)
    (hast : truthy apiIn.startDateTime = true)
    (haen : truthy apiIn.endDateTime = true)
    (has : parseDate (apiIn.startDateTime.getD "") = some ts2)
    (hae : parseDate (apiIn.endDateTime.getD "") = some te2)
    (hale : te2 ≤ ts2) :
    execute parseDate now input config now0 now1 tokenResp meetingResp
      = (.error "Failed to create Teams meeting: End time must be after start time",
         [])
    ∧ apiExecute parseDate apiIn apiCfg env now0 now1 tokenResp meetingResp
      = (.err 400 "VALIDATION_ERROR" "End time must be after start time", []) := by
  constructor
  · simp only [execute, hcid, hsec, hten, hs, he, Bool.and_self,
      not_true_eq_false, if_false, if_pos hle]
    rfl
  · simp only [apiExecute, hacid, hasec, haten, hasub, hast, haen, has, hae,
      Bool.and_self, not_true_eq_false, if_false, if_pos hale]

/-- Witness for C3: equal parsed start and end times at a concrete
input, on both entry points. -/
theorem c3_end_not_after_start_witness :
    execute pdTest 50 ⟨"Standup", "S", "Eq", none, none, none, none, none⟩
        cfgTest 0 0 (.success ⟨"tok", 3600⟩) (.success pmTest)
      = (.error "Failed to create Teams meeting: End time must be after start time",
         [])
    ∧ apiExecute pdTest
        ⟨some "Standup", some "S", some "Eq", none, none, none, none, none⟩
        cfgTest envEmpty 0 0 (.success ⟨"tok", 3600⟩) (.success pmTest)
      = (.err 400 "VALIDATION_ERROR" "End time must be after start time", []) :=
  c3_end_not_after_start pdTest 50
    ⟨"Standup", "S", "Eq", none, none, none, none, none⟩ cfgTest 0 0
    (.success ⟨"tok", 3600⟩) (.success pmTest)
    ⟨some "Standup", some "S", some "Eq", none, none, none, none, none⟩
    cfgTest envEmpty 100 100 100 100 (by decide) (by decide) (by decide)
    (by decide) (by decide) (by decide) (by decide) (by decide) (by decide)
    (by decide) (by decide) (by decide) (by decide) (by decide) (by decide)

/-- C4 counterexample: the Express handler performs no past-time check.
At wall-clock time 150 a request whose start time parses to 100 — i.e.
strictly in the past — passes validation, reaches the provider (one
meeting-creation call) and succeeds, so validation does not fail as the
claim states.  (`apiExecute` reads no clock for validation at all, so
this holds at every wall-clock instant.) -/
theorem c4_express_accepts_past_start :
    pdTest "S" = some 100 ∧ ((100 : Int) < 150)
    ∧ (apiExecute pdTest apiTest cfgTest envEmpty 150 150
        (.success ⟨"tok", 3600⟩) (.success pmTest)).fst.isOk = true
    ∧ meetingCalls (apiExecute pdTest apiTest cfgTest envEmpty 150 150
        (.success ⟨"tok", 3600⟩) (.success pmTest)).snd = 1 := by
  refine ⟨by decide, by decide, rfl, rfl⟩

/-- C4 as amended: in the tool's `execute` operation (not the Express
handler), a start time strictly before the single `new Date()` reading
taken by the check fails validation with the meeting-in-the-past
message and no network call, whatever the other fields hold. -/
theorem c4_past_meeting_rejected
    (parseDate : String → Option Int) (now : Int) (input : MeetingInput)
    (config : Config) (now0 now1 : Int)
    (tokenResp : FetchResult TokenBody)
    (meetingResp : FetchResult ProviderMeeting) (ts te : Int)
    (hcid : truthy config.client_id = true)
    (hsec : truthy config.client_secret = true)
    (hten : truthy config.tenant_id = true)
    (hs : parseDate input.startDateTime = some ts)
    (he : parseDate input.endDateTime = some te)
    (hlt : ts < te) (hpast : ts < now) :
    execute parseDate now input config now0 now1 tokenResp meetingResp
      = (.error "Failed to create Teams meeting: Cannot schedule meetings in the past",
         []) := by
  simp only [execute, hcid, hsec, hten, hs, he, Bool.and_self,
    not_true_eq_false, if_false, if_neg (not_le.mpr hlt), if_pos hpast]
  rfl

/-- Witness for the amended C4: start time 100, wall clock 150. -/
theorem c4_past_meeting_rejected_witness :
    execute pdTest 150 inpTest cfgTest 0 0 (.success ⟨"tok", 3600⟩)
        (.success pmTest)
      = (.error "Failed to create Teams meeting: Cannot schedule meetings in the past",
         []) :=
  c4_past_meeting_rejected pdTest 150 inpTest cfgTest 0 0
    (.success ⟨"tok", 3600⟩) (.success pmTest) 100 200 (by decide) (by decide)
    (by decide) (by decide) (by decide) (by decide) (by decide)

/-- C1: the token cache of a client instance.  First conjunct: with a
truthy cached token and the clock before the stored expiry,
`authenticate` returns at once — the state (hence the cached token) is
unchanged and no network call is made, whatever the token endpoint
would answer.  Remaining conjuncts: a first `createMeeting` on a fresh
client performs exactly one credential exchange and caches
`⟨tok, t1p + (ttl - 60) * 1000⟩`; a second call before that expiry
performs none (its trace is just the meeting request, for any token
response); a call at or after the expiry performs exactly one more. -/
theorem c1_token_cache
    (creds : Creds) (stA : GraphState) (nowA nowA1 : Int)
    (respA : FetchResult TokenBody) (tokA : String)
    (md1 md2 md3 : MeetingInput) (uid : Option String)
    (tok tok3 : String) (ttl ttl3 : Int)
    (t1 t1p t2 t2p t3 t3p : Int)
    (m1 m2 m3 : ProviderMeeting) (tr2 : FetchResult TokenBody)
    (hA1 : stA.accessToken = some tokA) (hA2 : tokA ≠ "")
    (hA3 : nowA < stA.tokenExpiry)
    (htok : tok ≠ "")
    (h2 : t2 < t1p + (ttl - 60) * 1000)
    (h3 : t1p + (ttl - 60) * 1000 ≤ t3) :
    authenticate creds stA nowA nowA1 respA = (.ok stA, [])
    ∧ createMeeting creds GraphState.init md1 uid t1 t1p (.success ⟨tok, ttl⟩)
          (.success m1)
        = (.ok (⟨some tok, t1p + (ttl - 60) * 1000⟩, m1),
           [.tokenRequest creds.tenantId creds.clientId creds.clientSecret,
            .meetingRequest (selectEndpoint uid) tok (buildMeetingPayload md1)])
    ∧ createMeeting creds ⟨some tok, t1p + (ttl - 60) * 1000⟩ md2 uid t2 t2p
          tr2 (.success m2)
        = (.ok (⟨some tok, t1p + (ttl - 60) * 1000⟩, m2),
           [.meetingRequest (selectEndpoint uid) tok (buildMeetingPayload md2)])
    ∧ tokenCalls (createMeeting creds ⟨some tok, t1p + (ttl - 60) * 1000⟩ md3
          uid t3 t3p (.success ⟨tok3, ttl3⟩) (.success m3)).snd = 1 := by
  have hcacheA : tokenCacheValid stA nowA = true := by
    simp [tokenCacheValid, hA1, truthy, hA2, hA3]
  have hcache2 : tokenCacheValid ⟨some tok, t1p + (ttl - 60) * 1000⟩ t2 = true := by
    simp [tokenCacheValid, truthy, htok, h2]
  have hcache3 : tokenCacheValid ⟨some tok, t1p + (ttl - 60) * 1000⟩ t3 = false := by
    simp [tokenCacheValid, truthy, not_lt.mpr h3]
  refine ⟨?_, ?_, ?_, ?_⟩
  · simp [authenticate, hcacheA]
  · simp [createMeeting, authenticate, init_cache_invalid]
  · simp [createMeeting, authenticate, hcache2]
  · simp [createMeeting, authenticate, hcache3, tokenCalls, NetCall.isToken]

/-- Witness for C1 at concrete states, times and responses. -/
theorem c1_token_cache_witness :
    authenticate ⟨"id", "secret", "tenant"⟩ ⟨some "t0", 1000⟩ 500 500
        (.success ⟨"x", 60⟩) = (.ok ⟨some "t0", 1000⟩, [])
    ∧ createMeeting ⟨"id", "secret", "tenant"⟩ GraphState.init inpTest none 0 0
          (.success ⟨"tok", 3600⟩) (.success pmTest)
        = (.ok (⟨some "tok", 0 + (3600 - 60) * 1000⟩, pmTest),
           [.tokenRequest "tenant" "id" "secret",
            .meetingRequest (selectEndpoint none) "tok"
              (buildMeetingPayload inpTest)])
    ∧ createMeeting ⟨"id", "secret", "tenant"⟩
          ⟨some "tok", 0 + (3600 - 60) * 1000⟩ inpTest none 100 100
          (.httpError 500 "boom") (.success pmTest)
        = (.ok (⟨some "tok", 0 + (3600 - 60) * 1000⟩, pmTest),
           [.meetingRequest (selectEndpoint none) "tok"
              (buildMeetingPayload inpTest)])
    ∧ tokenCalls (createMeeting ⟨"id", "secret", "tenant"⟩
          ⟨some "tok", 0 + (3600 - 60) * 1000⟩ inpTest none 4000000 4000000
          (.success ⟨"tok3", 3600⟩) (.success pmTest)).snd = 1 :=
  c1_token_cache ⟨"id", "secret", "tenant"⟩ ⟨some "t0", 1000⟩ 500 500
    (.success ⟨"x", 60⟩) "t0" inpTest inpTest inpTest none "tok" "tok3" 3600
    3600 0 0 100 100 4000000 4000000 pmTest pmTest pmTest
    (.httpError 500 "boom") (by decide) (by decide) (by decide) (by decide)
    (by decide) (by decide)

/-- C7: on every successful execution the result's `attendees_count` is
the length of the request's attendee list (0 when absent) — the
provider response `m` is universally quantified, so the count never
comes from it — and the last instructions entry is the
recording-disabled wording exactly when the request's recording flag,
after defaulting, is `false`, and the enabled wording otherwise. -/
theorem c7_result_from_request
    (parseDate : String → Option Int) (now : Int) (input : MeetingInput)
    (config : Config) (now0 now1 : Int) (tok : String) (ttl : Int)
    (m : ProviderMeeting) (ts te : Int)
    (hcid : truthy config.client_id = true)
    (hsec : truthy config.client_secret = true)
    (hten : truthy config.tenant_id = true)
    (hs : parseDate input.startDateTime = some ts)
    (he : parseDate input.endDateTime = some te)
    (hlt : ts < te) (hnow : now ≤ ts) :
    ∃ d : ExecData,
      (execute parseDate now input config now0 now1 (.success ⟨tok, ttl⟩)
          (.success m)).fst = .ok d
      ∧ d.attendees_count = (input.attendees.getD []).length
      ∧ d.instructions.getLast? = some (if input.allowRecording.getD false
            then "Recording is enabled for this meeting"
            else "Recording is disabled for this meeting") := by
  simp only [execute, hcid, hsec, hten, hs, he, Bool.and_self,
    not_true_eq_false, if_false, if_neg (not_le.mpr hlt),
    if_neg (not_lt.mpr hnow), createMeeting, authenticate,
    init_cache_invalid, Bool.false_eq_true]
  exact ⟨_, rfl, rfl, by cases input.allowRecording <;> simp [List.getLast?]⟩

/-- Witness for C7 at a concrete attendee-less request. -/
theorem c7_result_from_request_witness :
    ∃ d : ExecData,
      (execute pdTest 50 inpTest cfgTest 0 0 (.success ⟨"tok", 3600⟩)
          (.success pmTest)).fst = .ok d
      ∧ d.attendees_count = (inpTest.attendees.getD []).length
      ∧ d.instructions.getLast? = some (if inpTest.allowRecording.getD false
            then "Recording is enabled for this meeting"
            else "Recording is disabled for this meeting") :=
  c7_result_from_request pdTest 50 inpTest cfgTest 0 0 "tok" 3600 pmTest 100
    200 (by decide) (by decide) (by decide) (by decide) (by decide)
    (by decide) (by decide)

/-- A `createMeeting` run on a freshly constructed client that returns
successfully performed exactly one credential exchange. -/
theorem createMeeting_fresh_one_token (creds : Creds) (md : MeetingInput)
    (uid : Option String) (n0 n1 : Int) (tr : FetchResult TokenBody)
    (mr : FetchResult ProviderMeeting) (r : GraphState × ProviderMeeting)
    (calls : List NetCall)
    (h : createMeeting creds GraphState.init md uid n0 n1 tr mr
        = (.ok r, calls)) :
    tokenCalls calls = 1 := by
  cases tr <;> cases mr <;>
    simp [createMeeting, authenticate, init_cache_invalid] at h
  obtain ⟨h1, h2⟩ := h
  subst h2
  rfl

/-- C9: both public entry points construct a fresh client with an empty
token cache per invocation, so every successful execution performs
exactly one credential exchange of its own — a cached token is never
reused across invocations. -/
theorem c9_fresh_client_per_invocation
    (parseDate : String → Option Int) (now : Int) (input : MeetingInput)
    (config : Config) (now0 now1 : Int) (tr : FetchResult TokenBody)
    (mr : FetchResult ProviderMeeting) (apiIn : ApiInput)
    (apiCfg env : Config) (d : ExecData) (calls : List NetCall)
    (am : ApiMeeting) (s : String) (calls2 : List NetCall) :
    (execute parseDate now input config now0 now1 tr mr = (.ok d, calls) →
      tokenCalls calls = 1)
    ∧ (apiExecute parseDate apiIn apiCfg env now0 now1 tr mr
          = (.ok am s, calls2) →
      tokenCalls calls2 = 1) := by
  constructor
  · intro h
    unfold execute at h
    repeat' split at h
    all_goals try (exact Except.noConfusion (congrArg Prod.fst h))
    all_goals (
      obtain ⟨h1, h2⟩ := Prod.mk.inj h
      subst h2
      rename_i heq hrec
      exact createMeeting_fresh_one_token _ _ _ _ _ _ _ _ _ heq)
  · intro h
    unfold apiExecute at h
    repeat' split at h
    all_goals try (exact ApiResponse.noConfusion (congrArg Prod.fst h))
    all_goals (
      obtain ⟨h1, h2⟩ := Prod.mk.inj h
      subst h2
      rename_i heq
      exact createMeeting_fresh_one_token _ _ _ _ _ _ _ _ _ heq)

/-- Witness for C9: one concrete successful execution per entry point,
each tracing exactly one token request. -/
theorem c9_fresh_client_per_invocation_witness :
    tokenCalls [NetCall.tokenRequest "tenant" "id" "secret",
      NetCall.meetingRequest (selectEndpoint none) "tok"
        (buildMeetingPayload (forwardInput inpTest))] = 1
    ∧ tokenCalls [NetCall.tokenRequest "tenant" "id" "secret",
      NetCall.meetingRequest (selectEndpoint none) "tok"
        (buildMeetingPayload apiTest.toMeetingInput)] = 1 :=
  ⟨(c9_fresh_client_per_invocation pdTest 50 inpTest cfgTest 0 0
      (.success ⟨"tok", 3600⟩) (.success pmTest) apiTest cfgTest envEmpty
      ⟨normalizeMeeting pmTest,
       "Successfully created Teams meeting \"Standup\" for S", 0,
       ["Share the join URL with attendees to join the meeting",
        "Meeting will be available 15 minutes before the start time",
        "Recording is disabled for this meeting"]⟩
      [NetCall.tokenRequest "tenant" "id" "secret",
       NetCall.meetingRequest (selectEndpoint none) "tok"
         (buildMeetingPayload (forwardInput inpTest))]
      ⟨some "mid", some "https://join", some "Standup", none, none⟩
      "Successfully created Teams meeting \"Standup\""
      [NetCall.tokenRequest "tenant" "id" "secret",
       NetCall.meetingRequest (selectEndpoint none) "tok"
         (buildMeetingPayload apiTest.toMeetingInput)]).1 rfl,
   (c9_fresh_client_per_invocation pdTest 50 inpTest cfgTest 0 0
      (.success ⟨"tok", 3600⟩) (.success pmTest) apiTest cfgTest envEmpty
      ⟨normalizeMeeting pmTest,
       "Successfully created Teams meeting \"Standup\" for S", 0,
       ["Share the join URL with attendees to join the meeting",
        "Meeting will be available 15 minutes before the start time",
        "Recording is disabled for this meeting"]⟩
      [NetCall.tokenRequest "tenant" "id" "secret",
       NetCall.meetingRequest (selectEndpoint none) "tok"
         (buildMeetingPayload (forwardInput inpTest))]
      ⟨some "mid", some "https://join", some "Standup", none, none⟩
      "Successfully created Teams meeting \"Standup\""
      [NetCall.tokenRequest "tenant" "id" "secret",
       NetCall.meetingRequest (selectEndpoint none) "tok"
         (buildMeetingPayload apiTest.toMeetingInput)]).2 rfl⟩

end MeetingScheduler
